import Mathlib

/-!
Verification of the query-safety and schema-governance core of the
"Database & Utility Toolkit" (`src/custom_tool/Database & Utility Toolkit.py`).

The development shallowly embeds the Python module: every definition mirrors
the corresponding Python function or literal.  Strings are Lean `String`s;
the character-level helpers (`hasSubstr`, `pyStrip`, `pySplitWs`, `pyReplace`,
`splitFirstAux`, `lastDotComp`) reproduce the exact semantics of the Python
string methods used by the source (`in`, `strip`, `split`, `replace`,
`split(sep, 1)`, `split(".")[-1]`) on the character lists of those strings.
`upper`/`lower` are modelled with `Char.toUpper`/`Char.toLower`, which agree
with Python on ASCII (all the characters the module manipulates).

A Python dict literal is an association list in insertion order; dict
assignment is `dictInsert`.  Reading the module-level `schemas` global fresh
on every call is modelled by passing the catalog as an explicit argument; the
source literal itself is the constant `schemas` below.  The live database is
an oracle argument `dbExec : String → Except String (List Row)` (`Except.ok`:
the materialized rows of a successful execution, `Except.error e`: an
execution-time exception with message `e`).  A Python function call that can
raise an uncaught exception returns an `Option`; `none` marks the uncaught
exception (there is one reachable source of these: the `IndexError` in
`run_sql_query`'s `FROM`-token extraction).
-/

/-- A result row materialized by `dict(row._mapping)`: column name → value. -/
abbrev Row := List (String × String)

/-- The result envelope of `run_sql_query`: every `return` statement of the
Python function produces either `{"rows": rows}` or `{"error": msg}`. -/
inductive QueryResult where
  | rows (rs : List Row)
  | error (msg : String)
  deriving DecidableEq

/-- One entry of the `schemas` dict, projected to the only field the guard and
builder ever read: the ordered list of column names
(`[c["name"] for c in entry["columns"]]`).  The description, column types,
config and tests of the source literal are opaque passthrough metadata that no
code path inspects. -/
structure TableSchema where
  columns : List String
  deriving DecidableEq

/-- The `schemas` dict: an insertion-ordered association list with the table
name as key. -/
abbrev Catalog := List (String × TableSchema)

/-- `list(schemas.keys())` — the dict keys in insertion order. -/
def catalogKeys (cat : Catalog) : List String := cat.map Prod.fst

/-- The module-level `schemas` dict literal of the source, projected to the
fields the core reads: the 26 table names (dict keys, in insertion order) and
each table's ordered column names; a table whose entry has no `columns` key
gets `[]`, matching the `.get("columns", [])` read.  Descriptions, column
types, config and tests are opaque passthrough metadata that no code path of
the guard or builder inspects. -/
def schemas : Catalog := [
  ("api__intermediate__orders", ⟨["order_id", "order_created_at_date", "order_delivered_in_days", "order_delivered_in_hours", "order_delivered_at_date", "order_canceled_returned_at_date", "store_id", "customer_id", "customer_name", "order_status_name", "order_total_value", "order_total_value_converted", "payment_option_name", "last_updated_at_utc", "refreshed_at_utc", "run_started_at_utc"]⟩),
  ("api__analytics__abandoned_carts", ⟨["cart_id", "store_id", "cart_phase", "converted_cart", "cart_created_at", "cart_total_value", "cart_total_value_converted", "last_updated_at_utc", "refreshed_at_utc", "run_started_at_utc", "invocation_id"]⟩),
  ("api__analytics__coupons", ⟨["store_id", "coupon_id", "coupon_code", "coupon_name", "discount_type", "discount_amount", "coupon_status", "is_coupon_active", "coupon_new_status", "coupon_apply_to", "coupon_usage_limit", "coupon_usage_limit_per_customer", "minimum_order_total", "is_coupon_free_cod", "is_coupon_shipping", "coupon_created_at", "coupon_start_date", "coupon_end_date", "coupon_usage_date", "coupon_usage_count", "customers_count", "discounted_amount", "discounted_amount_converted", "total_value_after_discount", "total_value_after_discount_converted", "last_updated_at_utc", "refreshed_at_utc", "run_started_at_utc", "invocation_id"]⟩),
  ("api__analytics__customers", ⟨["customer_id", "store_id", "customer_name", "customer_joined_store_date", "shipping_address_city_id", "shipping_address_country_id", "customer_type", "customer_gender", "customer_city_name", "customer_city_name_ar", "customer_country_name", "customer_country_name_ar", "city_lon", "city_lat", "first_order_date", "last_order_date", "days_since_last_order", "customer_lifetime_days", "orders_count", "orders_total_value", "orders_total_value_converted", "delivered_orders_count", "delivered_orders_total_value_converted", "avg_basket_size", "last_updated_at_utc", "refreshed_at_utc", "run_started_at_utc", "invocation_id"]⟩),
  ("api__analytics__discount_rules", ⟨["discount_rule_id", "store_id", "discount_rule_name", "discount_rule_name_ar", "discount_type", "discount_rule_usage_date", "discount_rule_usage_count", "customers_count", "total_value_after_discount", "total_value_after_discount_converted", "total_discount_value", "total_discount_value_converted", "last_updated_at_utc", "refreshed_at_utc", "run_started_at_utc", "invocation_id"]⟩),
  ("api__analytics__inventories", ⟨["inventory_location_id", "store_id", "order_date", "inventory_name", "full_address", "city_name", "city_name_ar", "country_name", "country_name_ar", "orders_count", "orders_total_value", "orders_total_value_converted", "last_updated_at_utc", "refreshed_at_utc", "run_started_at_utc", "invocation_id"]⟩),
  ("api__analytics__orders_status_dates", ⟨["store_id", "order_created_at", "number_of_orders_cd", "number_of_orders_cp", "number_of_orders_pr", "number_of_orders_ip", "number_of_orders_ri", "number_of_orders_id", "number_of_orders_rr", "sum_created_at_to_delivered_mins", "sum_created_at_to_preparing_mins", "sum_preparing_to_ready_mins", "sum_preparing_to_in_delivery_mins", "sum_ready_to_in_delivery_mins", "sum_in_delivery_to_delivered_mins", "sum_processing_reverse_to_reversed_mins", "last_updated_at_utc", "refreshed_at_utc", "run_started_at_utc", "invocation_id"]⟩),
  ("api__analytics__orders", ⟨["order_id", "order_created_at_date", "order_delivered_in_days", "order_delivered_in_hours", "store_id", "customer_id", "customer_name", "customer_joined_store_date", "order_status_id", "order_status_name", "order_status_name_ar", "payment_method_code", "payment_method_name", "payment_method_name_ar", "payment_option_code", "payment_option_name", "payment_option_name_ar", "shipping_method_code", "shipping_method_name", "shipping_method_name_ar", "pickup_option_city_id", "pickup_option_city_name", "pickup_option_city_name_ar", "shipping_address_city_id", "shipping_address_city_name", "shipping_address_city_name_ar", "shipping_address_city_lon", "shipping_address_city_lat", "shipping_address_country_id", "shipping_address_country_name", "shipping_address_country_name_ar", "order_products_count", "order_currency_code", "store_currency_code", "order_total_value", "order_total_value_converted", "order_vat_value", "order_vat_value_converted", "order_shipping_fees", "order_shipping_fees_converted", "order_coupon_value", "order_coupon_value_converted", "order_shipping_discount_value", "order_shipping_discount_value_converted", "order_sub_total_value", "order_sub_total_value_converted", "order_sub_totals_value", "order_sub_totals_value_converted", "order_products_discount_value", "order_products_discount_value_converted", "order_sub_totals_before_vat_value", "order_sub_totals_before_vat_value_converted", "order_coupon_cod_discount_value", "order_coupon_cod_discount_value_converted", "order_free_shipping_coupon_value", "order_free_shipping_coupon_value_converted", "order_sub_totals_after_coupon_discount_value", "order_sub_totals_after_coupon_discount_value_converted", "order_sub_totals_after_products_discount_value", "order_sub_totals_after_products_discount_value_converted", "order_sub_totals_after_vat_value", "order_sub_totals_after_vat_value_converted", "order_zid_cod_value", "order_zid_cod_value_converted", "order_total_before_vat_value", "order_total_before_vat_value_converted", "order_source_code", "order_source_name", "order_source_name_ar", "order_utm_source", "order_utm_medium", "order_utm_campaign", "last_updated_at_utc", "refreshed_at_utc", "run_started_at_utc", "invocation_id"]⟩),
  ("api__analytics__products", ⟨["product_id", "store_id", "product_name", "product_name_ar", "product_sku", "product_structure", "product_parent_id", "product_cost", "product_price", "product_sale_price", "product_available_quantity", "is_infinite", "product_image", "product_order_date", "product_orders_count", "product_sold_quantity", "product_total_tax_amount", "product_total_tax_amount_converted", "product_total_sales_value", "product_total_sales_value_converted", "product_added_to_cart_count", "product_notifications_count", "product_avg_rating", "last_updated_at_utc", "refreshed_at_utc", "run_started_at_utc", "invocation_id"]⟩),
  ("api__analytics__store_token", ⟨["store_id"]⟩),
  ("api__analytics__visits", ⟨["id", "store_id", "activity_date", "visits_count", "product_views", "add_to_cart", "initial_checkout", "orders_completed", "utm_source", "utm_medium", "utm_campaign", "created_at_gmt", "visits_source", "last_updated_at_utc", "refreshed_at_utc", "run_started_at_utc", "invocation_id"]⟩),
  ("api__analytics__zidpay_analytics", ⟨["merchant_id", "store_id", "payment_id", "payment_status_name", "payment_amount", "merchant_share", "payment_fees_value", "network_name", "network_name_ar", "payment_failure_reason", "payment_error_name", "payment_error_name_ar", "deposit_status_name", "deposit_status_name_ar", "refund_status_name", "refund_status_name_ar", "refund_type_name", "refund_type_name_ar", "refund_amount", "refunds_count", "payment_created_at_date", "order_country_name", "order_country_name_ar", "order_status_name", "order_status_name_ar", "last_updated_at_utc", "refreshed_at_utc", "run_started_at_utc", "invocation_id"]⟩),
  ("api__analytics__zidpay_deposits", ⟨["store_id", "deposit_id", "provider_total_amount", "deposit_fees_value", "deposit_status_name", "deposit_type_name", "deposited_at_date", "last_updated_at_utc", "refreshed_at_utc", "run_started_at_utc", "invocation_id"]⟩),
  ("api__analytics__zidpay_stores", ⟨["store_id", "store_name", "store_url", "is_zidpay_active", "is_ngo_store", "refreshed_at_utc", "run_started_at_utc", "invocation_id"]⟩),
  ("api__analytics__store_currency", ⟨["store_id"]⟩),
  ("api__analytics__ratings", ⟨["id", "store_id", "customer_id", "item_id", "item_type", "optional_reference_id", "status_value", "rating_value", "comment", "is_anonymous", "is_notified", "meta", "rating_created_at_date", "last_updated_at_utc", "refreshed_at_utc", "run_started_at_utc", "invocation_id"]⟩),
  ("api__analytics__products_order_products", ⟨[]⟩),
  ("api__analytics__products_order_products_parent", ⟨[]⟩),
  ("api__analytics__products_order_products_all", ⟨[]⟩),
  ("api__analytics__products_order_products_sales", ⟨[]⟩),
  ("api__analytics__affiliates", ⟨[]⟩),
  ("api__analytics__store_currency_changes", ⟨[]⟩),
  ("api__analytics__marketplace_orders", ⟨["order_id", "order_created_at_date", "order_delivered_in_days", "order_delivered_in_hours", "order_delivered_at_date", "order_canceled_returned_at_date", "store_id", "customer_id", "customer_name", "customer_joined_store_date", "order_status_id", "order_status_name", "order_status_name_ar", "payment_method_code", "payment_method_name", "payment_method_name_ar", "payment_option_code", "payment_option_name", "payment_option_name_ar", "shipping_method_code", "shipping_method_name", "shipping_method_name_ar", "pickup_option_city_id", "pickup_option_city_name", "pickup_option_city_name_ar", "shipping_address_city_id", "shipping_address_city_name", "shipping_address_city_name_ar", "shipping_address_city_lon", "shipping_address_city_lat", "shipping_address_country_id", "shipping_address_country_name", "shipping_address_country_name_ar", "order_products_count", "order_products_cost", "order_currency_code", "store_currency_code", "current_store_currency_code", "currency_exchange_rate", "store_currency_exchange_rate", "current_currency_exchange_rate", "order_total_value", "order_total_value_converted", "order_vat_value", "order_vat_value_converted", "order_shipping_fees", "order_shipping_fees_converted", "order_coupon_value", "order_coupon_value_converted", "order_shipping_discount_value", "order_shipping_discount_value_converted", "order_sub_total_value", "order_sub_total_value_converted", "order_sub_totals_value", "order_sub_totals_value_converted", "order_products_discount_value", "order_products_discount_value_converted", "order_sub_totals_before_vat_value", "order_sub_totals_before_vat_value_converted", "order_coupon_cod_discount_value", "order_coupon_cod_discount_value_converted", "order_free_shipping_coupon_value", "order_free_shipping_coupon_value_converted", "order_sub_totals_after_coupon_discount_value", "order_sub_totals_after_coupon_discount_value_converted", "order_sub_totals_after_products_discount_value", "order_sub_totals_after_products_discount_value_converted", "order_sub_totals_after_vat_value", "order_sub_totals_after_vat_value_converted", "order_zid_cod_value", "order_zid_cod_value_converted", "order_total_before_vat_value", "order_total_before_vat_value_converted", "order_source_code", "order_source_name", "order_source_name_ar", "order_utm_source", "order_utm_medium", "order_utm_campaign", "inventory_location_id", "order_extra_data", "last_updated_at_utc", "run_started_at_utc", "invocation_id"]⟩),
  ("api__analytics__currencies", ⟨[]⟩),
  ("api__analytics__orders_marketplace_stores", ⟨["order_id", "order_created_at_date", "order_delivered_in_days", "order_delivered_in_hours", "store_id", "customer_id", "customer_name", "customer_joined_store_date", "order_status_id", "order_status_name", "order_status_name_ar", "payment_method_code", "payment_method_name", "payment_method_name_ar", "payment_option_code", "payment_option_name", "payment_option_name_ar", "shipping_method_code", "shipping_method_name", "shipping_method_name_ar", "pickup_option_city_id", "pickup_option_city_name", "pickup_option_city_name_ar", "shipping_address_city_id", "shipping_address_city_name", "shipping_address_city_name_ar", "shipping_address_city_lon", "shipping_address_city_lat", "shipping_address_country_id", "shipping_address_country_name", "shipping_address_country_name_ar", "order_products_count", "order_currency_code", "store_currency_code", "order_total_value", "order_total_value_converted", "order_vat_value", "order_vat_value_converted", "order_shipping_fees", "order_shipping_fees_converted", "order_coupon_value", "order_coupon_value_converted", "order_shipping_discount_value", "order_shipping_discount_value_converted", "order_sub_total_value", "order_sub_total_value_converted", "order_sub_totals_value", "order_sub_totals_value_converted", "order_products_discount_value", "order_products_discount_value_converted", "order_sub_totals_before_vat_value", "order_sub_totals_before_vat_value_converted", "order_coupon_cod_discount_value", "order_coupon_cod_discount_value_converted", "order_free_shipping_coupon_value", "order_free_shipping_coupon_value_converted", "order_sub_totals_after_coupon_discount_value", "order_sub_totals_after_coupon_discount_value_converted", "order_sub_totals_after_products_discount_value", "order_sub_totals_after_products_discount_value_converted", "order_sub_totals_after_vat_value", "order_sub_totals_after_vat_value_converted", "order_zid_cod_value", "order_zid_cod_value_converted", "order_total_before_vat_value", "order_total_before_vat_value_converted", "order_source_code", "order_source_name", "order_source_name_ar", "order_utm_source", "order_utm_medium", "order_utm_campaign", "last_updated_at_utc", "run_started_at_utc", "invocation_id"]⟩),
  ("api__analytics__summery", ⟨["store_id", "activity_date", "total_orders_value", "total_order_count", "new_orders_count", "visits_count", "orders_completed", "store_rating_count", "new_store_rating", "customer_order_count", "customer_orders_total_value_converted", "total_order_products_count", "num_of_usage", "discounted_price", "total_coupons_revenue", "count_customers", "discount_sale", "orders_from_automated_discounts_count", "count_cart", "num_of_completed_carts", "carts_value", "completed_carts_sale", "total_discount_revenue", "count_cancelled_orders", "total_cancelled_orders", "count_reversed_orders", "total_reversed_orders", "coupon_discount", "product_discount", "coupon_cod_discount", "shipping_discount", "free_shipping_coupon", "shipping_fees", "total_vat", "pos_sale", "pos_orders", "number_of_orders_cd", "number_of_orders_pr", "number_of_orders_ip", "number_of_orders_id", "number_of_orders_rr", "sum_created_at_to_delivered_mins", "sum_preparing_to_ready_mins", "sum_preparing_to_in_delivery_mins", "sum_in_delivery_to_delivered_mins", "sum_processing_reverse_to_reversed_mins", "product_sale", "total_discount", "total_shipping", "total_cod", "non_pos_sale", "non_pos_orders", "settled_transaction_volume", "unsettled_transactions_counts", "successful_transaction", "refunded_sales_volume", "successful_sales_volume", "successful_transaction_count", "failed_transaction_count", "refunded_transaction_count", "settled_transactions_count", "total_settled_amount", "last_updated_at_utc"]⟩)
]

/-- The return value of `database_permitted_tables`. -/
structure PermittedSet where
  database : String
  schema : String
  tables : List String
  deriving DecidableEq

/-- `database_permitted_tables()`: returns
`{"database": "dev", "schema": "platinum", "tables": list(schemas.keys())}`,
reading the catalog at call time (hence the explicit `cat` argument). -/
def database_permitted_tables (cat : Catalog) : PermittedSet :=
  { database := "dev", schema := "platinum", tables := catalogKeys cat }

/-- Python substring containment `needle in hay` on character lists. -/
def hasSubstr (needle : List Char) : List Char → Bool
  | [] => needle.isEmpty
  | c :: t => needle.isPrefixOf (c :: t) || hasSubstr needle t

/-- Python `s.strip()`: drop whitespace from both ends. -/
def pyStrip (l : List Char) : List Char :=
  ((l.dropWhile Char.isWhitespace).reverse.dropWhile Char.isWhitespace).reverse

/-- Fuel-indexed worker for `pySplitWs`.  The fuel is an upper bound on the
list length and at least one unit is consumed per step while the length never
grows, so the `0` case (which requires an empty list) agrees with the `[]`
case; structural recursion on the fuel keeps the function kernel-reducible. -/
def pySplitWsF : Nat → List Char → List (List Char)
  | 0, _ => []
  | _ + 1, [] => []
  | n + 1, c :: t =>
    if c.isWhitespace then pySplitWsF n t
    else (c :: t.takeWhile (fun x => !x.isWhitespace)) ::
      pySplitWsF n (t.dropWhile (fun x => !x.isWhitespace))

/-- Python `s.split()` (no separator): split on whitespace runs, discarding
empty pieces. -/
def pySplitWs (l : List Char) : List (List Char) := pySplitWsF l.length l

/-- Python `s.split(sep, 1)` for nonempty `sep`, keeping only the two parts
around the first occurrence; `none` when `sep` does not occur (in which case
the source's `[1]` subscript raises `IndexError`). -/
def splitFirstAux (sep : List Char) : List Char → Option (List Char × List Char)
  | [] => none
  | c :: t =>
    if sep.isPrefixOf (c :: t) then some ([], (c :: t).drop sep.length)
    else
      match splitFirstAux sep t with
      | some (pre, post) => some (c :: pre, post)
      | none => none

/-- Python `s.replace(old, new)` for nonempty `old`: scan left to right,
replacing each non-overlapping occurrence.  (`(c :: t).drop old.length` is
written `t.drop (old.length - 1)` for structural termination; the two agree
because the branch has `old ≠ []`.  For `old = []` the scan never matches and
the string is returned unchanged; the source only ever calls this with a
nonempty `old`.) -/
def pyReplaceF (old new : List Char) : Nat → List Char → List Char
  | 0, s => s
  | _ + 1, [] => []
  | n + 1, c :: t =>
    if old.isPrefixOf (c :: t) ∧ old ≠ [] then
      new ++ pyReplaceF old new n (t.drop (old.length - 1))
    else c :: pyReplaceF old new n t

/-- `pyReplaceF` with enough fuel (its length is an upper bound consumed at
least once per step, so the `0` case is never hit). -/
def pyReplace (old new s : List Char) : List Char := pyReplaceF old new s.length s

/-- Python `s.upper()` (ASCII). -/
def pyUpper (s : String) : String := String.mk (s.data.map Char.toUpper)

/-- Python `s.lower()` (ASCII). -/
def pyLower (s : String) : String := String.mk (s.data.map Char.toLower)

/-- Python `t.split(".")[-1]`: the suffix after the last `'.'` (the whole
string when there is no `'.'`). -/
def lastDotComp (l : List Char) : List Char :=
  (l.reverse.takeWhile (fun c => c != '.')).reverse

/-- `lastDotComp` on a `String`. -/
def lastDotComponent (s : String) : String := String.mk (lastDotComp s.data)

/-- The `blacklisted_keywords` literal of `run_sql_query`. -/
def blacklisted_keywords : List String :=
  ["INSERT", "DROP", "DELETE", "TRUNCATE", "ALTER"]

/-- The keyword loop of `run_sql_query`:
`for keyword in blacklisted_keywords: if keyword in upper_sql and not
upper_sql.startswith("SELECT"): return ...` — the first keyword (in list
order) whose test fires, if any. -/
def keywordCheck (upper_sql : String) : Option String :=
  blacklisted_keywords.find? fun kw =>
    hasSubstr kw.data upper_sql.data && !("SELECT".data.isPrefixOf upper_sql.data)

/-- What `run_sql_query` decides before touching the database: reject with an
error message, or proceed to execute a (possibly rewritten) SQL string. -/
inductive GuardOutcome where
  | reject (msg : String)
  | proceed (sql : String)
  deriving DecidableEq

/-- Python `table_name = tok.replace(";", "")`: remove every `';'`. -/
def stripSemis (tok : List Char) : List Char := tok.filter (fun c => c != ';')

namespace Tools

/-- The pre-execution part of `Tools.run_sql_query`, line by line:

* `upper_sql = query.upper()`; the blacklist loop (`keywordCheck`);
* `permitted = database_permitted_tables()`;
  `permitted_schema = permitted["schema"]`;
  `permitted_tables = [t.lower() for t in permitted["tables"]]`;
* `if "FROM" in upper_sql:` — note the containment test is on the *uppercased*
  text while `query.split("FROM", 1)` searches the *original* text, so the
  split can fail (`none`: the `IndexError` of `[1]`), and `after_from.split()`
  can be empty (`none`: the `IndexError` of `[0]`);
* the `.`-qualified token passes through; an unqualified permitted token
  rewrites the query with `query.replace(after_from.split()[0],
  f"{permitted_schema}.{table_name}")`; anything else is rejected. -/
def guardAndRewrite (cat : Catalog) (query : String) : Option GuardOutcome :=
  let upper_sql := pyUpper query
  match keywordCheck upper_sql with
  | some keyword => some (.reject ("Query contains blacklisted keyword: " ++ keyword))
  | none =>
    let permitted := database_permitted_tables cat
    let permitted_schema := permitted.schema
    let permitted_tables := permitted.tables.map pyLower
    if hasSubstr "FROM".data upper_sql.data then
      match splitFirstAux "FROM".data query.data with
      | none => none
      | some (_, rest) =>
        let after_from := pyStrip rest
        match pySplitWs after_from with
        | [] => none
        | tok :: _ =>
          let table_name := stripSemis tok
          if '.' ∈ table_name then some (.proceed query)
          else if String.mk (table_name.map Char.toLower) ∈ permitted_tables then
            some (.proceed (String.mk
              (pyReplace tok (permitted_schema.data ++ '.' :: table_name) query.data)))
          else some (.reject ("Table " ++ String.mk table_name ++ " is not permitted."))
    else some (.proceed query)

/-- `Tools.run_sql_query`: the guard/rewrite phase followed by
`engine.connect()` / `conn.execute` (the oracle `dbExec`), with the
`except Exception` handler collapsing every execution failure into
`{"error": "could not connect to server"}`. -/
def run_sql_query (dbExec : String → Except String (List Row)) (cat : Catalog)
    (query : String) : Option QueryResult :=
  match guardAndRewrite cat query with
  | none => none
  | some (.reject msg) => some (.error msg)
  | some (.proceed sql) =>
    match dbExec sql with
    | .ok rows => some (.rows rows)
    | .error _ => some (.error "could not connect to server")

end Tools

/-- The result of `Tools.get_tables_schema`: the per-table schema dict, or the
no-match error dict. -/
inductive SchemaResult where
  | found (m : List (String × TableSchema))
  | error (msg : String)
  deriving DecidableEq

/-- Python dict assignment `d[key] = v` on an association list: overwrite in
place when the key exists, else append. -/
def dictInsert (acc : List (String × TableSchema)) (key : String) (v : TableSchema) :
    List (String × TableSchema) :=
  if (acc.lookup key).isSome then
    acc.map (fun p => if p.1 == key then (p.1, v) else p)
  else acc ++ [(key, v)]

namespace Tools

/-- One iteration of the `get_tables_schema` loop:
`key = t.split(".")[-1]; if key in self.schemas: result[key] = self.schemas[key]`. -/
def lookupStep (cat : Catalog) (acc : List (String × TableSchema)) (t : String) :
    List (String × TableSchema) :=
  let key := lastDotComponent t
  match cat.lookup key with
  | some v => dictInsert acc key v
  | none => acc

/-- `Tools.get_tables_schema`: for each requested name, look up
`t.split(".")[-1]` in the catalog, accumulating a result dict; return
`{"error": "No matching tables found"}` when the dict stays empty. -/
def get_tables_schema (cat : Catalog) (tables : List String) : SchemaResult :=
  let result := tables.foldl (lookupStep cat) []
  if result = [] then .error "No matching tables found" else .found result

end Tools

/-- The structured input dict of `nlp_to_sql`; `none` marks an absent key
(`dict.get`). -/
structure StructuredInput where
  table : Option String
  columns : Option (List String)
  limit : Option Int
  filters : Option (List (String × String))

/-- `[c["name"] for c in tools.schemas.get(table, {}).get("columns", [])]` —
with `TableSchema` already projected to column names, this is the catalog
lookup with `[]` for a missing table. -/
def schemaColumns (cat : Catalog) (table : String) : List String :=
  ((cat.lookup table).map TableSchema.columns).getD []

/-- `nlp_to_sql(structured_input, tools)`, line by line: read the fields with
their `dict.get` defaults; reject a falsy (`None` or `""`) table, then an
empty or wildcard-only column list; build the SQL string (filters interpolated
verbatim as `col = 'val'` joined with `" AND "`); validate the *selected*
columns against the catalog, failing on the first invalid one; finally hand
the SQL to `Tools.run_sql_query`. -/
def nlp_to_sql (dbExec : String → Except String (List Row)) (cat : Catalog)
    (structured_input : StructuredInput) : Option QueryResult :=
  let columns := structured_input.columns.getD ["*"]
  let limit := structured_input.limit.getD 10
  let filters := structured_input.filters.getD []
  match structured_input.table with
  | none => some (.error "Table is missing.")
  | some table =>
    if table = "" then some (.error "Table is missing.")
    else if columns = [] ∨ columns = ["*"] then some (.error "Columns cannot be empty.")
    else
      let full_table := "platinum." ++ table
      let where_clause :=
        if filters = [] then ""
        else " WHERE " ++ String.intercalate " AND "
          (filters.map (fun p => p.1 ++ " = \x27" ++ p.2 ++ "\x27"))
      let sql := "SELECT " ++ String.intercalate ", " columns ++ " FROM " ++
        full_table ++ where_clause ++ " LIMIT " ++ toString limit ++ ";"
      let schema_cols := schemaColumns cat table
      match columns.find? (fun col => !(schema_cols.contains col)) with
      | some col => some (.error ("Invalid column \x27" ++ col ++ "\x27 for table \x27" ++
          table ++ "\x27"))
      | none => Tools.run_sql_query dbExec cat sql

/-- A database oracle whose every execution fails (an unreachable server). -/
def execFail : String → Except String (List Row) := fun _ => .error "connection refused"

/-- A database oracle whose every execution succeeds with no rows. -/
def execOk : String → Except String (List Row) := fun _ => .ok []

/-- The token the guard extracts after the first literal `FROM`, mirroring the
corresponding steps of `guardAndRewrite` (used to state claims about it). -/
def fromTok (query : String) : Option (List Char) :=
  match splitFirstAux "FROM".data query.data with
  | none => none
  | some (_, rest) => (pySplitWs (pyStrip rest)).head?

/-! ## Helper lemmas -/

theorem guard_reject_table_of_kwNone (cat : Catalog) (q m : String)
    (hk : keywordCheck (pyUpper q) = none)
    (h : Tools.guardAndRewrite cat q = some (.reject m)) :
    ∃ t, m = "Table " ++ t ++ " is not permitted." := by
  simp only [Tools.guardAndRewrite, hk] at h
  split at h
  · split at h
    · exact absurd h (by simp)
    · split at h
      · exact absurd h (by simp)
      · split at h
        · exact absurd (Option.some.inj h) (by simp)
        · split at h
          · exact absurd (Option.some.inj h) (by simp)
          · exact ⟨_, (GuardOutcome.reject.inj (Option.some.inj h)).symm⟩
  · exact absurd (Option.some.inj h) (by simp)

theorem guard_of_kw (cat : Catalog) (q kw : String)
    (h : keywordCheck (pyUpper q) = some kw) :
    Tools.guardAndRewrite cat q =
      some (.reject ("Query contains blacklisted keyword: " ++ kw)) := by
  simp only [Tools.guardAndRewrite, h]

theorem run_of_guard_reject (dbExec : String → Except String (List Row))
    (cat : Catalog) (q m : String)
    (h : Tools.guardAndRewrite cat q = some (.reject m)) :
    Tools.run_sql_query dbExec cat q = some (.error m) := by
  simp only [Tools.run_sql_query, h]

theorem run_of_guard_proceed (dbExec : String → Except String (List Row))
    (cat : Catalog) (q sql : String)
    (h : Tools.guardAndRewrite cat q = some (.proceed sql)) :
    Tools.run_sql_query dbExec cat q =
      some (match dbExec sql with
        | .ok rows => .rows rows
        | .error _ => .error "could not connect to server") := by
  simp only [Tools.run_sql_query, h]
  cases dbExec sql <;> rfl

/-! ## Claims -/

/-- C6: `database_permitted_tables` always returns database `"dev"`, schema
`"platinum"`, and as `tables` exactly the keys of the schema catalog it reads
at call time — for any catalog state, `tables = catalogKeys cat`. -/
theorem permitted_tables_invariant (cat : Catalog) :
    database_permitted_tables cat =
      { database := "dev", schema := "platinum", tables := catalogKeys cat } :=
  rfl

/-- C1: any SQL string whose uppercased form contains a blacklisted keyword
and does not start with `SELECT` is rejected by `run_sql_query` with
`Query contains blacklisted keyword: <keyword>` naming a keyword that occurs,
for every database oracle (so the statement is never executed). -/
theorem keyword_blacklist_rejects (cat : Catalog) (q : String)
    (hpre : "SELECT".data.isPrefixOf (pyUpper q).data = false)
    (hkw : ∃ kw ∈ blacklisted_keywords, hasSubstr kw.data (pyUpper q).data = true) :
    ∃ kw ∈ blacklisted_keywords, hasSubstr kw.data (pyUpper q).data = true ∧
      ∀ dbExec, Tools.run_sql_query dbExec cat q =
        some (QueryResult.error ("Query contains blacklisted keyword: " ++ kw)) := by
  have hfind : (blacklisted_keywords.find? fun kw =>
      hasSubstr kw.data (pyUpper q).data &&
        !("SELECT".data.isPrefixOf (pyUpper q).data)).isSome := by
    rw [List.find?_isSome]
    obtain ⟨kw, hmem, hsub⟩ := hkw
    exact ⟨kw, hmem, by rw [hsub, hpre]; rfl⟩
  obtain ⟨kw, hkfind⟩ := Option.isSome_iff_exists.mp hfind
  have hp := List.find?_some hkfind
  rw [Bool.and_eq_true] at hp
  refine ⟨kw, List.mem_of_find?_eq_some hkfind, hp.1, fun dbExec => ?_⟩
  exact run_of_guard_reject dbExec cat q _ (guard_of_kw cat q kw hkfind)

/-- Witness for C1: `"DROP TABLE t"` is rejected naming `DROP`. -/
theorem keyword_blacklist_rejects_witness :
    ∃ kw ∈ blacklisted_keywords, hasSubstr kw.data (pyUpper "DROP TABLE t").data = true ∧
      ∀ dbExec, Tools.run_sql_query dbExec schemas "DROP TABLE t" =
        some (QueryResult.error ("Query contains blacklisted keyword: " ++ kw)) :=
  keyword_blacklist_rejects schemas "DROP TABLE t" (by decide) (by decide)

/-- C5: an SQL string whose uppercased form starts with `SELECT` passes the
mutation check even when a blacklisted keyword occurs as a substring; any
rejection the guard can still produce is a table-permission rejection, never a
keyword one. -/
theorem select_prefix_passes_mutation_check (q : String)
    (hpre : "SELECT".data.isPrefixOf (pyUpper q).data = true)
    (_hkw : ∃ kw ∈ blacklisted_keywords, hasSubstr kw.data (pyUpper q).data = true) :
    keywordCheck (pyUpper q) = none ∧
      ∀ (cat : Catalog) (m : String),
        Tools.guardAndRewrite cat q = some (.reject m) →
        ∃ t, m = "Table " ++ t ++ " is not permitted." := by
  have hnone : keywordCheck (pyUpper q) = none := by
    unfold keywordCheck
    rw [List.find?_eq_none]
    intro kw _
    rw [hpre]
    simp
  exact ⟨hnone, fun cat m h => guard_reject_table_of_kwNone cat q m hnone h⟩

/-- Witness for C5: `"SELECT x FROM DROPZONE"` contains `DROP` yet passes the
mutation check. -/
theorem select_prefix_passes_mutation_check_witness :
    keywordCheck (pyUpper "SELECT x FROM DROPZONE") = none ∧
      ∀ (cat : Catalog) (m : String),
        Tools.guardAndRewrite cat "SELECT x FROM DROPZONE" = some (.reject m) →
        ∃ t, m = "Table " ++ t ++ " is not permitted." :=
  select_prefix_passes_mutation_check "SELECT x FROM DROPZONE" (by decide) (by decide)

/-- C3 (code bug): `run_sql_query` does *not* always return a result envelope.
`"FROM" in upper_sql` tests the uppercased text, but `query.split("FROM", 1)`
splits the original text, so a lowercase `from` raises `IndexError` on `[1]`
(first conjunct); and when `FROM` is the final token, `after_from.split()[0]`
raises `IndexError` on `[0]` (second conjunct).  `none` is the embedding's
marker for the uncaught exception. -/
theorem run_sql_query_crash_on_case_mismatch :
    Tools.run_sql_query execOk schemas "select 1 from t" = none ∧
    Tools.run_sql_query execOk schemas "SELECT 1 FROM" = none := by
  exact ⟨by decide, by decide⟩

/-- C4: once the guard proceeds with a (possibly rewritten) statement, every
execution-time failure — whatever its exception text `e` — is collapsed into
the constant message `could not connect to server`, and a successful execution
returns exactly the materialized rows. -/
theorem execution_failure_collapsed (cat : Catalog) (q sql : String)
    (h : Tools.guardAndRewrite cat q = some (.proceed sql)) :
    ∀ dbExec,
      (∀ e, dbExec sql = .error e →
        Tools.run_sql_query dbExec cat q =
          some (.error "could not connect to server")) ∧
      (∀ rs, dbExec sql = .ok rs →
        Tools.run_sql_query dbExec cat q = some (.rows rs)) := by
  intro dbExec
  constructor
  · intro e he
    rw [run_of_guard_proceed dbExec cat q sql h, he]
  · intro rs hrs
    rw [run_of_guard_proceed dbExec cat q sql h, hrs]

/-- Witness for C4: a failing oracle yields the opaque message, a succeeding
oracle yields the rows, on a guard-passing statement. -/
theorem execution_failure_collapsed_witness :
    Tools.run_sql_query execFail schemas "SELECT 1 FROM platinum.x" =
      some (.error "could not connect to server") ∧
    Tools.run_sql_query execOk schemas "SELECT 1 FROM platinum.x" =
      some (.rows []) :=
  ⟨(execution_failure_collapsed schemas "SELECT 1 FROM platinum.x"
      "SELECT 1 FROM platinum.x" (by decide) execFail).1 "connection refused" rfl,
   (execution_failure_collapsed schemas "SELECT 1 FROM platinum.x"
      "SELECT 1 FROM platinum.x" (by decide) execOk).2 [] rfl⟩

theorem guard_reject_shape (cat : Catalog) (q m : String)
    (h : Tools.guardAndRewrite cat q = some (.reject m)) :
    (∃ kw ∈ blacklisted_keywords, m = "Query contains blacklisted keyword: " ++ kw) ∨
      ∃ t, m = "Table " ++ t ++ " is not permitted." := by
  cases hk : keywordCheck (pyUpper q) with
  | some kw =>
    rw [guard_of_kw cat q kw hk] at h
    have hkmem : kw ∈ blacklisted_keywords := by
      unfold keywordCheck at hk
      exact List.mem_of_find?_eq_some hk
    exact Or.inl ⟨kw, hkmem, (GuardOutcome.reject.inj (Option.some.inj h)).symm⟩
  | none => exact Or.inr (guard_reject_table_of_kwNone cat q m hk h)

theorem run_error_shape (dbExec : String → Except String (List Row))
    (cat : Catalog) (q m : String)
    (h : Tools.run_sql_query dbExec cat q = some (.error m)) :
    m = "could not connect to server" ∨
      (∃ kw ∈ blacklisted_keywords, m = "Query contains blacklisted keyword: " ++ kw) ∨
      ∃ t, m = "Table " ++ t ++ " is not permitted." := by
  cases hg : Tools.guardAndRewrite cat q with
  | none =>
    have hn : Tools.run_sql_query dbExec cat q = none := by
      simp only [Tools.run_sql_query, hg]
    exact absurd (hn.symm.trans h) (by simp)
  | some g =>
    cases g with
    | reject msg =>
      have hr := run_of_guard_reject dbExec cat q msg hg
      have hm : msg = m := QueryResult.error.inj (Option.some.inj (hr.symm.trans h))
      rcases guard_reject_shape cat q msg hg with hk | ht
      · obtain ⟨kw, hkmem, hkeq⟩ := hk
        exact Or.inr (Or.inl ⟨kw, hkmem, hm ▸ hkeq⟩)
      · obtain ⟨t, hte⟩ := ht
        exact Or.inr (Or.inr ⟨t, hm ▸ hte⟩)
    | proceed sql =>
      have hr := run_of_guard_proceed dbExec cat q sql hg
      have hc := hr.symm.trans h
      cases he : dbExec sql with
      | ok rows => rw [he] at hc; exact absurd hc (by simp)
      | error e =>
        rw [he] at hc
        exact Or.inl (QueryResult.error.inj (Option.some.inj hc)).symm

theorem string_ne_of_head (a b : String) (ca cb : Char)
    (ha : a.data.head? = some ca) (hb : b.data.head? = some cb) (hc : ca ≠ cb) :
    a ≠ b :=
  fun he => hc (Option.some.inj ((he ▸ ha).symm.trans hb))

/-- C7: when the table field is absent (`None`) or empty (`""`), `nlp_to_sql`
fails with `Table is missing.` (that check fires first); with a present,
non-empty table it rejects with `Columns cannot be empty.` exactly when the
requested columns default/value is the empty list or the wildcard-only list
`["*"]`. -/
theorem columns_empty_rejection_iff (dbExec : String → Except String (List Row))
    (cat : Catalog) (si : StructuredInput) :
    (si.table = none ∨ si.table = some "" →
      nlp_to_sql dbExec cat si = some (.error "Table is missing.")) ∧
    (si.table ≠ none → si.table ≠ some "" →
      (nlp_to_sql dbExec cat si = some (.error "Columns cannot be empty.") ↔
        si.columns.getD ["*"] = [] ∨ si.columns.getD ["*"] = ["*"])) := by
  constructor
  · intro hmiss
    rcases hmiss with hta | hta
    · simp only [nlp_to_sql, hta]
    · simp only [nlp_to_sql, hta]
      exact if_pos trivial
  · intro ht ht2
    cases hta : si.table with
    | none => exact absurd hta ht
    | some table =>
      have htne : ¬(table = "") := fun hh => ht2 (by rw [hta, hh])
      constructor
      · intro h
        by_contra hcol
        simp only [nlp_to_sql, hta] at h
        rw [if_neg htne, if_neg hcol] at h
        cases hfind : (si.columns.getD ["*"]).find?
            (fun col => !((schemaColumns cat table).contains col)) with
        | some col =>
          rw [hfind] at h
          have he := QueryResult.error.inj (Option.some.inj h)
          exact absurd he (string_ne_of_head _ _ 'I' 'C' rfl rfl (by decide))
        | none =>
          rw [hfind] at h
          rcases run_error_shape dbExec cat _ _ h with hc | hk | htb
          · exact absurd hc (by decide)
          · obtain ⟨kw, _, hkeq⟩ := hk
            exact absurd hkeq.symm (string_ne_of_head _ _ 'Q' 'C' rfl rfl (by decide))
          · obtain ⟨t, hte⟩ := htb
            exact absurd hte.symm (string_ne_of_head _ _ 'T' 'C' rfl rfl (by decide))
      · intro h
        simp only [nlp_to_sql, hta]
        rw [if_neg htne, if_pos h]

/-- Witness for C7: an absent table and an empty table are both rejected with
`Table is missing.`, and `{table: "summery", columns: ["*"]}` is rejected with
`Columns cannot be empty.`. -/
theorem columns_empty_rejection_iff_witness :
    nlp_to_sql execFail schemas ⟨none, some ["store_id"], none, none⟩ =
      some (.error "Table is missing.") ∧
    nlp_to_sql execFail schemas ⟨some "", some ["store_id"], none, none⟩ =
      some (.error "Table is missing.") ∧
    nlp_to_sql execFail schemas ⟨some "summery", some ["*"], none, none⟩ =
      some (.error "Columns cannot be empty.") :=
  ⟨(columns_empty_rejection_iff execFail schemas
      ⟨none, some ["store_id"], none, none⟩).1 (Or.inl rfl),
   (columns_empty_rejection_iff execFail schemas
      ⟨some "", some ["store_id"], none, none⟩).1 (Or.inr rfl),
   ((columns_empty_rejection_iff execFail schemas
      ⟨some "summery", some ["*"], none, none⟩).2 (by decide) (by decide)).mpr (by decide)⟩

/-- C8: with a valid table field and a non-empty, non-wildcard column list,
`nlp_to_sql` fails on the *first* requested column absent from the table's
catalog columns (the empty list when the table itself is not in the catalog),
naming that column and the table, for every database oracle — so no SQL is
executed. -/
theorem invalid_column_fail_fast (cat : Catalog) (si : StructuredInput)
    (table : String) (columns : List String) (col : String)
    (hta : si.table = some table) (htne : ¬(table = ""))
    (hc : si.columns = some columns)
    (hne : ¬(columns = [] ∨ columns = ["*"]))
    (hfind : columns.find? (fun c => !((schemaColumns cat table).contains c)) = some col) :
    ∀ dbExec, nlp_to_sql dbExec cat si =
      some (.error ("Invalid column \x27" ++ col ++ "\x27 for table \x27" ++
        table ++ "\x27")) := by
  intro dbExec
  simp only [nlp_to_sql, hta, hc, Option.getD_some]
  rw [if_neg htne, if_neg hne, hfind]

/-- Witness for C8: `{table: "orders", columns: ["nonexistent_col"]}` —
`orders` is not a catalog key, so its column list is empty and the first
requested column is rejected by name. -/
theorem invalid_column_fail_fast_witness :
    nlp_to_sql execFail schemas ⟨some "orders", some ["nonexistent_col"], none, none⟩ =
      some (.error "Invalid column \x27nonexistent_col\x27 for table \x27orders\x27") :=
  invalid_column_fail_fast schemas ⟨some "orders", some ["nonexistent_col"], none, none⟩
    "orders" ["nonexistent_col"] "nonexistent_col" rfl (by decide) rfl (by decide)
    (by decide) execFail

/-- C10: with a valid table and fully valid selected columns, `nlp_to_sql`
never rejects on account of the filters: every filter pair is interpolated
verbatim into the WHERE clause as `key = 'value'` joined with `AND` — filter
keys are not validated against the catalog — and the built SQL is handed to
`run_sql_query`. -/
theorem filters_interpolated_unvalidated (dbExec : String → Except String (List Row))
    (cat : Catalog) (table : String) (columns : List String) (limit : Int)
    (filters : List (String × String))
    (htne : ¬(table = "")) (hne : ¬(columns = [] ∨ columns = ["*"]))
    (hval : ∀ col ∈ columns, (schemaColumns cat table).contains col = true) :
    nlp_to_sql dbExec cat ⟨some table, some columns, some limit, some filters⟩ =
      Tools.run_sql_query dbExec cat
        ("SELECT " ++ String.intercalate ", " columns ++ " FROM " ++
          ("platinum." ++ table) ++
          (if filters = [] then ""
           else " WHERE " ++ String.intercalate " AND "
             (filters.map (fun p => p.1 ++ " = \x27" ++ p.2 ++ "\x27"))) ++
          " LIMIT " ++ toString limit ++ ";") := by
  have hfind : columns.find? (fun col => !((schemaColumns cat table).contains col)) = none := by
    rw [List.find?_eq_none]
    intro x hx
    rw [hval x hx]
    decide
  simp only [nlp_to_sql, Option.getD_some]
  rw [if_neg htne, if_neg hne, hfind]

/-- Witness for C10: a filter on a key that is not a column of the table is
interpolated into the SQL rather than rejected. -/
theorem filters_interpolated_unvalidated_witness :
    nlp_to_sql execOk schemas
        ⟨some "api__analytics__store_token", some ["store_id"], some 3,
          some [("bogus", "x")]⟩ =
      Tools.run_sql_query execOk schemas
        ("SELECT " ++ String.intercalate ", " ["store_id"] ++ " FROM " ++
          ("platinum." ++ "api__analytics__store_token") ++
          (if ([("bogus", "x")] : List (String × String)) = [] then ""
           else " WHERE " ++ String.intercalate " AND "
             (([("bogus", "x")] : List (String × String)).map
               (fun p => p.1 ++ " = \x27" ++ p.2 ++ "\x27"))) ++
          " LIMIT " ++ toString (3 : Int) ++ ";") :=
  filters_interpolated_unvalidated execOk schemas "api__analytics__store_token"
    ["store_id"] 3 [("bogus", "x")] (by decide) (by decide) (by decide)

theorem takeWhile_append_cons_of_neg (p : Char → Bool) (c : Char) (hc : p c = false) :
    ∀ (l r : List Char), (l ++ c :: r).takeWhile p = l.takeWhile p
  | [], r => by simp [List.takeWhile_cons, hc]
  | a :: l, r => by
    simp only [List.cons_append, List.takeWhile_cons]
    cases p a <;> simp [takeWhile_append_cons_of_neg p c hc l r]

theorem lastDotComp_qualified (p n : List Char) :
    lastDotComp (p ++ '.' :: n) = lastDotComp n := by
  unfold lastDotComp
  have h1 : (p ++ '.' :: n).reverse = n.reverse ++ '.' :: p.reverse := by
    rw [show ('.' :: n : List Char) = ['.'] ++ n from rfl, ← List.append_assoc,
      List.reverse_append, List.reverse_append]
    rfl
  rw [h1, takeWhile_append_cons_of_neg _ '.' (by decide)]

theorem lastDotComponent_qualified (p n : String) :
    lastDotComponent (p ++ "." ++ n) = lastDotComponent n := by
  unfold lastDotComponent
  have h1 : (p ++ "." ++ n).data = p.data ++ '.' :: n.data := by
    show (p.data ++ ['.']) ++ n.data = p.data ++ '.' :: n.data
    rw [List.append_assoc]
    rfl
  rw [h1, lastDotComp_qualified]

theorem lookupStep_congr (cat : Catalog) (acc : List (String × TableSchema))
    (x y : String) (h : lastDotComponent x = lastDotComponent y) :
    Tools.lookupStep cat acc x = Tools.lookupStep cat acc y := by
  unfold Tools.lookupStep
  rw [h]

theorem get_tables_schema_key_congr (cat : Catalog) (ts₁ ts₂ : List String)
    (x y : String) (h : lastDotComponent x = lastDotComponent y) :
    Tools.get_tables_schema cat (ts₁ ++ x :: ts₂) =
      Tools.get_tables_schema cat (ts₁ ++ y :: ts₂) := by
  unfold Tools.get_tables_schema
  rw [List.foldl_append, List.foldl_append, List.foldl_cons, List.foldl_cons,
    lookupStep_congr cat _ x y h]

theorem foldl_lookupStep_of_none (cat : Catalog) :
    ∀ (ts : List String) (acc : List (String × TableSchema)),
      (∀ t ∈ ts, cat.lookup (lastDotComponent t) = none) →
      ts.foldl (Tools.lookupStep cat) acc = acc
  | [], _, _ => rfl
  | t :: ts, acc, h => by
    rw [List.foldl_cons]
    have hstep : Tools.lookupStep cat acc t = acc := by
      simp only [Tools.lookupStep, h t (List.mem_cons_self t ts)]
    rw [hstep]
    exact foldl_lookupStep_of_none cat ts acc (fun u hu => h u (List.mem_cons_of_mem t hu))

/-- C9: `get_tables_schema` strips any schema-qualification prefix before the
catalog lookup, so qualifying any requested name leaves the result unchanged;
when no requested name resolves to a catalog key the result is the
`No matching tables found` error rather than an empty mapping; and in
particular `["platinum.orders"]` and `["orders"]` give identical results. -/
theorem get_tables_schema_claims :
    (∀ (cat : Catalog) (ts₁ ts₂ : List String) (p n : String),
      Tools.get_tables_schema cat (ts₁ ++ (p ++ "." ++ n) :: ts₂) =
        Tools.get_tables_schema cat (ts₁ ++ n :: ts₂)) ∧
    (∀ (cat : Catalog) (ts : List String),
      (∀ t ∈ ts, cat.lookup (lastDotComponent t) = none) →
      Tools.get_tables_schema cat ts = .error "No matching tables found") ∧
    Tools.get_tables_schema schemas ["platinum.orders"] =
      Tools.get_tables_schema schemas ["orders"] := by
  refine ⟨?_, ?_, ?_⟩
  · intro cat ts₁ ts₂ p n
    exact get_tables_schema_key_congr cat ts₁ ts₂ _ _ (lastDotComponent_qualified p n)
  · intro cat ts h
    unfold Tools.get_tables_schema
    rw [foldl_lookupStep_of_none cat ts [] h]
    rfl
  · decide

/-- Witness for C9: a qualified and an unqualified request over the real
catalog, and an all-miss request yielding the explicit error. -/
theorem get_tables_schema_claims_witness :
    Tools.get_tables_schema schemas ([] ++ ("platinum" ++ "." ++ "orders") :: []) =
      Tools.get_tables_schema schemas ([] ++ "orders" :: []) ∧
    Tools.get_tables_schema schemas ["nope"] = .error "No matching tables found" :=
  ⟨get_tables_schema_claims.1 schemas [] [] "platinum" "orders",
   get_tables_schema_claims.2.1 schemas ["nope"] (by decide)⟩

theorem isPrefixOf_append_self : ∀ (l r : List Char), l.isPrefixOf (l ++ r) = true
  | [], _ => List.isPrefixOf_nil_left
  | c :: t, r => by
    rw [List.cons_append, List.isPrefixOf_cons₂]
    simp [isPrefixOf_append_self t r]

theorem hasSubstr_nil_left : ∀ (l : List Char), hasSubstr [] l = true
  | [] => rfl
  | _ :: _ => rfl

theorem hasSubstr_of_isPrefixOf (x : List Char) :
    ∀ (l : List Char), x.isPrefixOf l = true → hasSubstr x l = true
  | [], h => by
    cases x with
    | nil => rfl
    | cons c t => exact absurd h (by simp)
  | c :: t, h => by
    show (x.isPrefixOf (c :: t) || hasSubstr x t) = true
    rw [h]
    rfl

theorem hasSubstr_append_self (x r : List Char) : hasSubstr x (x ++ r) = true :=
  hasSubstr_of_isPrefixOf x (x ++ r) (isPrefixOf_append_self x r)

theorem hasSubstr_cons_of (x t : List Char) (c : Char) (h : hasSubstr x t = true) :
    hasSubstr x (c :: t) = true := by
  simp only [hasSubstr, h, Bool.or_true]

theorem hasSubstr_of_parts : ∀ (a x b : List Char), hasSubstr x (a ++ x ++ b) = true
  | [], x, b => by simpa using hasSubstr_append_self x b
  | c :: a, x, b => by
    have ih := hasSubstr_of_parts a x b
    simpa using hasSubstr_cons_of x (a ++ x ++ b) c ih

theorem eq_append_drop_of_isPrefixOf :
    ∀ (o l : List Char), o.isPrefixOf l = true → l = o ++ l.drop o.length
  | [], l, _ => by simp
  | o :: os, [], h => by simp [List.isPrefixOf] at h
  | o :: os, c :: t, h => by
    simp only [List.isPrefixOf_cons₂, Bool.and_eq_true, beq_iff_eq] at h
    obtain ⟨rfl, h2⟩ := h
    simp only [List.length_cons, List.drop_succ_cons, List.cons_append]
    exact congrArg (o :: ·) (eq_append_drop_of_isPrefixOf os t h2)

theorem splitFirstAux_decomp :
    ∀ (sep l pre post : List Char),
      splitFirstAux sep l = some (pre, post) → l = pre ++ sep ++ post
  | sep, [], pre, post, h => by simp [splitFirstAux] at h
  | sep, c :: t, pre, post, h => by
    unfold splitFirstAux at h
    split at h
    · rename_i hp
      injection h with h2
      injection h2 with h3 h4
      subst h3 h4
      simpa using eq_append_drop_of_isPrefixOf sep (c :: t) hp
    · cases hrec : splitFirstAux sep t with
      | none =>
        simp only [hrec] at h
        exact Option.noConfusion h
      | some pr =>
        obtain ⟨pre2, post2⟩ := pr
        simp only [hrec] at h
        injection h with h2
        injection h2 with h3 h4
        subst h3 h4
        have ih := splitFirstAux_decomp sep t pre2 post2 hrec
        simp [ih]

theorem pyStrip_parts (l : List Char) : ∃ a b, l = a ++ pyStrip l ++ b := by
  have hm : l.dropWhile Char.isWhitespace =
      pyStrip l ++
        ((l.dropWhile Char.isWhitespace).reverse.takeWhile Char.isWhitespace).reverse := by
    unfold pyStrip
    conv_lhs => rw [← List.reverse_reverse (l.dropWhile Char.isWhitespace)]
    rw [← List.reverse_append, List.takeWhile_append_dropWhile]
  refine ⟨l.takeWhile Char.isWhitespace,
    ((l.dropWhile Char.isWhitespace).reverse.takeWhile Char.isWhitespace).reverse, ?_⟩
  conv_lhs => rw [← List.takeWhile_append_dropWhile Char.isWhitespace l, hm]
  simp [List.append_assoc]

theorem pySplitWsF_head_parts :
    ∀ (n : Nat) (l tok : List Char) (rest : List (List Char)),
      l.length ≤ n → pySplitWsF n l = tok :: rest →
      tok ≠ [] ∧ ∃ a b, l = a ++ tok ++ b
  | 0, l, tok, rest, hle, h => by
    have : l = [] := List.length_eq_zero.mp (Nat.le_zero.mp hle)
    subst this
    simp [pySplitWsF] at h
  | n + 1, [], tok, rest, _, h => by simp [pySplitWsF] at h
  | n + 1, c :: t, tok, rest, hle, h => by
    unfold pySplitWsF at h
    split at h
    · have hle2 : t.length ≤ n := by
        simp only [List.length_cons] at hle
        omega
      obtain ⟨hne, a, b, hab⟩ := pySplitWsF_head_parts n t tok rest hle2 h
      exact ⟨hne, c :: a, b, by simp [hab]⟩
    · injection h with h2 h3
      subst h2
      refine ⟨by simp, [], t.dropWhile (fun x => !x.isWhitespace), ?_⟩
      simp [List.takeWhile_append_dropWhile]

theorem pyReplaceF_hasSubstr (old new : List Char) (hne : old ≠ []) :
    ∀ (n : Nat) (s : List Char), s.length ≤ n → hasSubstr old s = true →
      hasSubstr new (pyReplaceF old new n s) = true
  | 0, s, hle, hs => by
    have : s = [] := List.length_eq_zero.mp (Nat.le_zero.mp hle)
    subst this
    simp [hasSubstr, List.isEmpty_iff] at hs
    exact absurd hs hne
  | n + 1, [], _, hs => by
    simp [hasSubstr, List.isEmpty_iff] at hs
    exact absurd hs hne
  | n + 1, c :: t, hle, hs => by
    unfold pyReplaceF
    split
    · exact hasSubstr_append_self new _
    · rename_i hcond
      have hp : old.isPrefixOf (c :: t) = false := by
        cases hb : old.isPrefixOf (c :: t) with
        | false => rfl
        | true => exact absurd ⟨hb, hne⟩ hcond
      have hst : hasSubstr old t = true := by
        simp only [hasSubstr, hp, Bool.false_or] at hs
        exact hs
      have hle2 : t.length ≤ n := by
        simp only [List.length_cons] at hle
        omega
      exact hasSubstr_cons_of new _ c (pyReplaceF_hasSubstr old new hne n t hle2 hst)

theorem pyReplace_hasSubstr (old new s : List Char) (hne : old ≠ [])
    (hs : hasSubstr old s = true) : hasSubstr new (pyReplace old new s) = true :=
  pyReplaceF_hasSubstr old new hne s.length s (Nat.le_refl _) hs

theorem fromTok_elim (q : String) (tok : List Char) (h : fromTok q = some tok) :
    ∃ pre rest tl, splitFirstAux "FROM".data q.data = some (pre, rest) ∧
      pySplitWs (pyStrip rest) = tok :: tl := by
  unfold fromTok at h
  cases hsplit : splitFirstAux "FROM".data q.data with
  | none =>
    rw [hsplit] at h
    exact Option.noConfusion h
  | some pr =>
    obtain ⟨pre, rest⟩ := pr
    rw [hsplit] at h
    have h2 : (pySplitWs (pyStrip rest)).head? = some tok := h
    cases hh : pySplitWs (pyStrip rest) with
    | nil =>
      rw [hh] at h2
      exact Option.noConfusion h2
    | cons tok2 tl =>
      rw [hh] at h2
      have : tok2 = tok := by simpa using h2
      subst this
      exact ⟨pre, rest, tl, rfl, hh⟩

theorem fromTok_parts (q : String) (tok : List Char) (h : fromTok q = some tok) :
    tok ≠ [] ∧ hasSubstr tok q.data = true := by
  obtain ⟨pre, rest, tl, hsplit, hh⟩ := fromTok_elim q tok h
  have hh2 : pySplitWsF (pyStrip rest).length (pyStrip rest) = tok :: tl := hh
  obtain ⟨hne, a, b, hab⟩ :=
    pySplitWsF_head_parts (pyStrip rest).length (pyStrip rest) tok tl (Nat.le_refl _) hh2
  obtain ⟨a2, b2, hstrip⟩ := pyStrip_parts rest
  have hq := splitFirstAux_decomp "FROM".data q.data pre rest hsplit
  refine ⟨hne, ?_⟩
  have hdecomp : q.data = (pre ++ "FROM".data ++ (a2 ++ a)) ++ tok ++ (b ++ b2) := by
    rw [hq, hstrip, hab]
    simp [List.append_assoc]
  rw [hdecomp]
  exact hasSubstr_of_parts _ _ _

theorem upper_contains_FROM (q : String) (tok : List Char) (h : fromTok q = some tok) :
    hasSubstr "FROM".data (pyUpper q).data = true := by
  obtain ⟨pre, rest, _, hsplit, _⟩ := fromTok_elim q tok h
  have hq := splitFirstAux_decomp "FROM".data q.data pre rest hsplit
  have hupper : (pyUpper q).data =
      (pre.map Char.toUpper) ++ "FROM".data ++ (rest.map Char.toUpper) := by
    show q.data.map Char.toUpper = _
    rw [hq, List.map_append, List.map_append]
    rfl
  rw [hupper]
  exact hasSubstr_of_parts _ _ _

/-- C2 counterexample: `"DELETE FROM foo"` satisfies the claim's premise — its
first `FROM` is followed by the unqualified token `foo`, which is absent from
the permitted set — yet `run_sql_query` returns the *keyword* rejection (the
mutation check runs first), not `Table foo is not permitted.` as the claim
states. -/
theorem from_table_claim_counterexample :
    fromTok "DELETE FROM foo" = some "foo".data ∧
    ('.' ∉ stripSemis "foo".data) ∧
    String.mk ((stripSemis "foo".data).map Char.toLower) ∉
      (database_permitted_tables schemas).tables.map pyLower ∧
    Tools.run_sql_query execFail schemas "DELETE FROM foo" =
      some (.error "Query contains blacklisted keyword: DELETE") ∧
    Tools.run_sql_query execFail schemas "DELETE FROM foo" ≠
      some (.error "Table foo is not permitted.") :=
  ⟨by decide, by decide, by decide, by decide, by decide⟩

/-- C2 (amended): provided the statement also passes the mutation check, the
guard's table phase behaves as claimed: a `FROM`-token containing `.` passes
through untouched; an unqualified token whose lowercase form is in the
permitted set rewrites the statement by `replace`, so the rewritten SQL
contains `<schema>.<table>`; an unqualified token absent from the permitted
set makes `run_sql_query` return `Table <name> is not permitted.`. -/
theorem from_table_guard_amended (cat : Catalog) (q : String) (tok : List Char)
    (hkw : keywordCheck (pyUpper q) = none)
    (htok : fromTok q = some tok) :
    ('.' ∈ stripSemis tok → Tools.guardAndRewrite cat q = some (.proceed q)) ∧
    ('.' ∉ stripSemis tok →
      (String.mk ((stripSemis tok).map Char.toLower) ∈
          (database_permitted_tables cat).tables.map pyLower →
        Tools.guardAndRewrite cat q = some (.proceed (String.mk
          (pyReplace tok ((database_permitted_tables cat).schema.data ++
            '.' :: stripSemis tok) q.data))) ∧
        hasSubstr ((database_permitted_tables cat).schema.data ++ '.' :: stripSemis tok)
          (pyReplace tok ((database_permitted_tables cat).schema.data ++
            '.' :: stripSemis tok) q.data) = true) ∧
      (String.mk ((stripSemis tok).map Char.toLower) ∉
          (database_permitted_tables cat).tables.map pyLower →
        ∀ dbExec, Tools.run_sql_query dbExec cat q =
          some (.error ("Table " ++ String.mk (stripSemis tok) ++
            " is not permitted.")))) := by
  obtain ⟨pre, rest, tl, hsplit, hh⟩ := fromTok_elim q tok htok
  have hFROM : hasSubstr "FROM".data (pyUpper q).data = true :=
    upper_contains_FROM q tok htok
  have hg : Tools.guardAndRewrite cat q =
      (if '.' ∈ stripSemis tok then some (GuardOutcome.proceed q)
       else if String.mk ((stripSemis tok).map Char.toLower) ∈
           (database_permitted_tables cat).tables.map pyLower then
         some (GuardOutcome.proceed (String.mk
           (pyReplace tok ((database_permitted_tables cat).schema.data ++
             '.' :: stripSemis tok) q.data)))
       else some (GuardOutcome.reject ("Table " ++ String.mk (stripSemis tok) ++
         " is not permitted."))) := by
    simp only [Tools.guardAndRewrite, hkw]
    rw [if_pos hFROM]
    simp only [hsplit, hh]
  refine ⟨?_, ?_⟩
  · intro hdot
    rw [hg, if_pos hdot]
  · intro hdot
    refine ⟨?_, ?_⟩
    · intro hmem
      refine ⟨by rw [hg, if_neg hdot, if_pos hmem], ?_⟩
      obtain ⟨hne, hsub⟩ := fromTok_parts q tok htok
      exact pyReplace_hasSubstr tok _ q.data hne hsub
    · intro hmem dbExec
      have hrej : Tools.guardAndRewrite cat q =
          some (.reject ("Table " ++ String.mk (stripSemis tok) ++
            " is not permitted.")) := by
        rw [hg, if_neg hdot, if_neg hmem]
      exact run_of_guard_reject dbExec cat q _ hrej

/-- Witness for the amended C2: `foo` is rejected by name; a permitted table
is rewritten with the `platinum.` prefix. -/
theorem from_table_guard_amended_witness :
    Tools.run_sql_query execFail schemas "SELECT * FROM foo" =
      some (.error "Table foo is not permitted.") ∧
    Tools.guardAndRewrite schemas "SELECT a FROM api__analytics__orders" =
      some (.proceed "SELECT a FROM platinum.api__analytics__orders") :=
  ⟨((from_table_guard_amended schemas "SELECT * FROM foo" "foo".data (by decide)
      (by decide)).2 (by decide)).2 (by decide) execFail,
   (((from_table_guard_amended schemas "SELECT a FROM api__analytics__orders"
      "api__analytics__orders".data (by decide) (by decide)).2 (by decide)).1
      (by decide)).1⟩
